import Mathlib

/-!
Shallow embedding of the Station Availability Synchronization Engine of the
ev-charging backend (src/backend/app), together with proofs settling the
frozen claims about it.

Conventions of the embedding:
- MongoDB collections are lists of documents; a lookup by the unique key
  tomtom_id returns the first match, which matches the unique index that
  station_repository creates on that field.
- Timestamps (datetime.utcnow()) are natural numbers supplied by the caller.
- Network calls and the random number generator are oracles passed in as
  function or Except-valued arguments: the code around them is embedded
  faithfully, the wire itself is not.
- Python strings are Lean String; a Python value that may be None is an
  Option.
-/

namespace EvCharging

/-! ### Data model (app/models/station.py and the Mongo documents built from it) -/

/-- Connector sub-document as stored by create_station (station_repository.py). -/
structure ConnectorDoc where
  id : Option String
  type : String
  max_power_kw : ℚ
  current_type : String
  status : String
deriving DecidableEq, Repr

/-- Station document of the current_stations collection, with the fields the
engine reads and writes.  The field availability_status_changes_count mirrors
the pydantic Station field of that name (default 0); create_station omits it
from the inserted document and every reader treats an absent field as the
model default 0, which the embedding represents by storing the 0 directly. -/
structure StationDoc where
  tomtom_id : String
  name : String
  coordinates : ℚ × ℚ
  address : String
  connectors : List ConnectorDoc
  status : String
  last_updated : Nat
  data_source : String
  availability_status_changes_count : Nat
deriving DecidableEq, Repr

/-- Pydantic Station object as produced by the TomTom service parsers, with
the fields the sweeps and the cache path consume. -/
structure StationModel where
  tomtom_id : String
  name : String
  coordinates : ℚ × ℚ
  address : String
  connectors : List ConnectorDoc
  status : String
deriving DecidableEq, Repr

/-- Collection of current stations. -/
abbrev Store := List StationDoc

/-! ### StationRepository (app/repositories/station_repository.py) -/

/-- StationRepository.find_by_tomtom_id: find_one on the unique key. -/
def find_by_tomtom_id (store : Store) (tomtom_id : String) : Option StationDoc :=
  store.find? (fun d => d.tomtom_id == tomtom_id)

/-- Optional fields of the additional_updates dict that call sites pass to
update_station_status; a some value overrides the corresponding field of the
update document. -/
structure UpdateExtras where
  connectors : Option (List ConnectorDoc) := none
  data_source : Option String := none
  last_updated : Option Nat := none
deriving DecidableEq, Repr

/-- Application of the $set document of update_station_status to one station
document: status and last_updated are always set (additional_updates may
override last_updated because dict.update runs after they are filled in),
connectors and data_source only when the call site passed them.  No other
field is touched; in particular availability_status_changes_count is not. -/
def applyStatusUpdate (new_status : String) (now : Nat) (e : UpdateExtras)
    (d : StationDoc) : StationDoc :=
  { d with
    status := new_status
    last_updated := e.last_updated.getD now
    connectors := e.connectors.getD d.connectors
    data_source := e.data_source.getD d.data_source }

/-- StationRepository.update_station_status: update_one against the filter
on tomtom_id with a $set of status, last_updated and the additional updates.
Returns the new collection and whether a document was updated (the source
returns modified_count greater than 0; with a fresh last_updated an update of
a matched document always modifies it, so matched is the faithful reading). -/
def update_station_status (store : Store) (tomtom_id new_status : String)
    (now : Nat) (e : UpdateExtras) : Store × Bool :=
  match store with
  | [] => ([], false)
  | d :: rest =>
    if d.tomtom_id == tomtom_id then
      (applyStatusUpdate new_status now e d :: rest, true)
    else
      let r := update_station_status rest tomtom_id new_status now e
      (d :: r.1, r.2)

/-- Document inserted by StationRepository.create_station: the station model
fields plus last_updated set to now and data_source TOMTOM.  The inserted
document carries no availability_status_changes_count field, which reads back
as the model default 0. -/
def stationToDoc (s : StationModel) (now : Nat) : StationDoc :=
  { tomtom_id := s.tomtom_id
    name := s.name
    coordinates := s.coordinates
    address := s.address
    connectors := s.connectors
    status := s.status
    last_updated := now
    data_source := "TOMTOM"
    availability_status_changes_count := 0 }

/-- StationRepository.create_station: insert_one of the built document. -/
def create_station (store : Store) (s : StationModel) (now : Nat) : Store :=
  store ++ [stationToDoc s now]

/-- StationRepository.find_nearby_stations: aggregation pipeline of a geoNear
stage (spherical distance from the query point, maxDistance the radius, query
the optional upper-cased status filter, output sorted nearest first), then a
limit stage, then a sort on the computed distance.  The geodesic distance the
2dsphere index computes for each document is supplied as the oracle d. -/
def find_nearby_stations (d : StationDoc → ℚ) (store : Store)
    (radius_meters : ℚ) (status_filter : Option String) (limit : Nat) :
    List StationDoc :=
  let q : StationDoc → Bool := fun s =>
    match status_filter with
    | some f => s.status == f.toUpper
    | none => true
  let geonear :=
    (store.filter (fun s => q s && decide (d s ≤ radius_meters))).mergeSort
      (fun a b => decide (d a ≤ d b))
  let limited := geonear.take limit
  limited.mergeSort (fun a b => decide (d a ≤ d b))

/-! ### Speed sweep (app/tasks/realtime_tasks.py, bulk variant) -/

/-- Station argument of process_station_status as its body reads it: a dict
whose keys are fetched with get, so tomtom_id, status and name may be absent
(the falsy test also treats an empty id string as absent). -/
structure StationDict where
  tomtom_id : Option String
  status : Option String
  name : Option String
deriving DecidableEq, Repr

/-- Change record that process_station_status hands back for the broadcast
batch. -/
structure ChangeInfo where
  station_id : String
  old_status : String
  new_status : String
deriving DecidableEq, Repr

/-- Runtime error raised by a modelled Python step. -/
inductive PyError where
  | attributeError : String → PyError
deriving DecidableEq, Repr

/-- Outcome of one process_station_status call: the station collection after
the writes that did happen, plus either the returned value or the raised
error (database writes preceding the raise persist). -/
structure ProcResult where
  store : Store
  result : Except PyError (Option ChangeInfo)

/-- Truthiness test of the Python expression not tomtom_id. -/
def idFalsy : Option String → Bool
  | none => true
  | some s => s == ""

/-- process_station_status (realtime_tasks.py lines 165 to 212).  When the
bulk map holds a different status for the station the function first writes
the new status through update_station_status and then evaluates
station_repository.add_historical_availability, an attribute that the
StationRepository class does not define anywhere in the repository, so the
attribute access raises AttributeError before any snapshot is written; no
path of this function touches the events collection. -/
def process_station_status (now : Nat) (store : Store)
    (bulk_status : List (String × String)) (station : StationDict) :
    ProcResult :=
  if idFalsy station.tomtom_id then ⟨store, .ok none⟩
  else
    let tid := station.tomtom_id.getD ""
    let old_status := station.status.getD "UNKNOWN"
    let new_status := (bulk_status.lookup tid).getD old_status
    if old_status ≠ new_status then
      let store1 := (update_station_status store tid new_status now
        { last_updated := some now }).1
      ⟨store1, .error (.attributeError "add_historical_availability")⟩
    else
      ⟨store, .ok none⟩

/-- Outcome of one _async_bulk_poll_and_broadcast run. -/
structure RunOutcome where
  store : Store
  events : List ChangeInfo
  broadcasts : List (List ChangeInfo)
  failed : Bool
deriving Repr

/-- State threaded through the per-station tasks of the bulk run. -/
structure BulkAcc where
  store : Store
  changes : List ChangeInfo
  failed : Bool

/-- One gathered task of the bulk run. -/
def bulk_poll_step (now : Nat) (bulk_status : List (String × String))
    (acc : BulkAcc) (st : StationDict) : BulkAcc :=
  let r := process_station_status now acc.store bulk_status st
  match r.result with
  | .ok (some ci) => ⟨r.store, acc.changes ++ [ci], acc.failed⟩
  | .ok none => ⟨r.store, acc.changes, acc.failed⟩
  | .error _ => ⟨r.store, acc.changes, true⟩

/-- _async_bulk_poll_and_broadcast (realtime_tasks.py lines 129 to 163): the
per-station tasks run under asyncio.gather, whose default behaviour lets the
writes of every task land and re-raises the first task exception in the
awaiting coroutine, so a failed task aborts the run before the broadcast; a
single status_update message carrying all collected changes is emitted only
when no task failed and the changed batch is non-empty.  The events argument
is the events collection, which no statement of this code path writes. -/
def bulk_poll_run (now : Nat) (store : Store) (events : List ChangeInfo)
    (bulk_status : List (String × String)) (stations : List StationDict) :
    RunOutcome :=
  let acc := stations.foldl (bulk_poll_step now bulk_status) ⟨store, [], false⟩
  if acc.failed then
    ⟨acc.store, events, [], true⟩
  else if acc.changes.isEmpty then
    ⟨acc.store, events, [], false⟩
  else
    ⟨acc.store, events, [acc.changes], false⟩

/-! ### Batch reconciliation sweep (app/tasks/batch_tasks.py) -/

/-- map_status_for_schema (batch_tasks.py lines 222 to 231), applied to
values that may be Python None. -/
def map_status_for_schema (status : Option String) : String :=
  if status = some "OUT_OF_ORDER" then "OFFLINE"
  else if status = some "BUSY" ∨ status = some "OCCUPIED" then "OCCUPIED"
  else if status = some "AVAILABLE" then "AVAILABLE"
  else if status = some "MAINTENANCE" then "MAINTENANCE"
  else "OFFLINE"

/-- Connector detail row of a historical record. -/
structure ConnectorDetail where
  connector_id : String
  type : String
  status : String
deriving DecidableEq, Repr

/-- Historical snapshot document written by the batch sweep (the fields of
status_snapshot are inlined). -/
structure HistoricalDoc where
  station_id : String
  timestamp : Nat
  station_status : String
  total_connectors : Nat
  available_connectors : Nat
  occupied_connectors : Nat
  out_of_order_connectors : Nat
  connector_details : List ConnectorDetail
deriving DecidableEq, Repr

/-- Snapshot and detail construction of _async_batch_update for one fetched
station (batch_tasks.py lines 72 to 88). -/
def buildHistoricalDoc (st : StationModel) (now : Nat) : HistoricalDoc :=
  { station_id := st.tomtom_id
    timestamp := now
    station_status := map_status_for_schema (some st.status)
    total_connectors := st.connectors.length
    available_connectors :=
      (st.connectors.filter
        (fun c => map_status_for_schema (some c.status) == "AVAILABLE")).length
    occupied_connectors :=
      (st.connectors.filter
        (fun c => map_status_for_schema (some c.status) == "OCCUPIED")).length
    out_of_order_connectors :=
      (st.connectors.filter
        (fun c => map_status_for_schema (some c.status) == "OFFLINE")).length
    connector_details :=
      st.connectors.map (fun c =>
        { connector_id := c.id.getD ""
          type := c.type
          status := c.status }) }

/-- Summary dict returned by _async_batch_update.  Its keys are status,
message, new_stations, updated_stations, historical_records and the echoed
location; it carries no count of missing stations and no fetched or known id
sets, which the function never computes. -/
structure BatchSummary where
  status : String
  message : String
  new_stations : Nat
  updated_stations : Nat
  historical_records : Nat
deriving DecidableEq, Repr

/-- State threaded through the station loop of _async_batch_update. -/
structure BatchAcc where
  store : Store
  historical : List HistoricalDoc
  inserted : Nat
  updated : Nat
  saved : Nat

/-- Loop body of _async_batch_update (batch_tasks.py lines 70 to 138): an
existing station is updated, and a snapshot written, only when its stored
status differs from the fetched one; a new station is inserted and always
receives an initial snapshot.  The source file as committed carries an
IndentationError at the inserted count line (line 121, one level too deep
after a complete statement), so the module cannot even be imported; the
embedding follows the evident intent of counting the insert it follows. -/
def batch_step (now : Nat) (acc : BatchAcc) (st : StationModel) : BatchAcc :=
  let hist := buildHistoricalDoc st now
  match find_by_tomtom_id acc.store st.tomtom_id with
  | some existing =>
    if existing.status ≠ st.status then
      let store1 := (update_station_status acc.store st.tomtom_id st.status now
        { connectors := some st.connectors
          data_source := some "TOMTOM"
          last_updated := some now }).1
      ⟨store1, acc.historical ++ [hist], acc.inserted, acc.updated + 1,
        acc.saved + 1⟩
    else
      acc
  | none =>
    ⟨create_station acc.store st now, acc.historical ++ [hist],
      acc.inserted + 1, acc.updated, acc.saved + 1⟩

/-- Result of one _async_batch_update run. -/
structure BatchResult where
  summary : BatchSummary
  store : Store
  historical : List HistoricalDoc
deriving Repr

/-- _async_batch_update (batch_tasks.py lines 50 to 161) over the stations
the TomTom area search returned. -/
def async_batch_update (now : Nat) (store : Store)
    (historical : List HistoricalDoc) (fetched : List StationModel) :
    BatchResult :=
  if fetched.isEmpty then
    ⟨{ status := "success", message := "No stations to update"
       new_stations := 0, updated_stations := 0, historical_records := 0 },
      store, historical⟩
  else
    let acc := fetched.foldl (batch_step now) ⟨store, historical, 0, 0, 0⟩
    ⟨{ status := "success"
       message := "Processed " ++ toString fetched.length ++ " stations"
       new_stations := acc.inserted
       updated_stations := acc.updated
       historical_records := acc.saved },
      acc.store, acc.historical⟩

/-! ### Availability fetching (app/services/tomtom_service.py) -/

/-- Successive slices of n elements, the slicing that both availability
fetchers perform with range strides over the id list. -/
def chunksOfFuel (n : Nat) : Nat → List α → List (List α)
  | _, [] => []
  | 0, l => [l]
  | fuel + 1, x :: xs =>
    if n = 0 then [x :: xs]
    else ((x :: xs).take n) :: chunksOfFuel n fuel ((x :: xs).drop n)

/-- Chunking entry point: the fuel starts at the list length, which bounds
the number of slices, so the recursion is structural and the function
evaluates by kernel reduction. -/
def chunksOf (n : Nat) (l : List α) : List (List α) :=
  chunksOfFuel n l.length l

/-- Raw connector entry of a chargingAvailability response, before parsing. -/
structure RawConn where
  id : Option String
  status : Option String
deriving DecidableEq, Repr

/-- Raw station entry of a chargingAvailability response, before parsing. -/
structure RawStation where
  id : Option String
  status : Option String
  connectors : List RawConn
deriving DecidableEq, Repr

/-- Parsed per-connector availability. -/
structure ConnAvail where
  id : String
  status : String
deriving DecidableEq, Repr

/-- Parsed per-station availability returned by the sync bulk fetcher. -/
structure StationAvail where
  tomtom_id : String
  overall_status : String
  connectors : List ConnAvail
deriving DecidableEq, Repr

/-- Status normalization performed inline by get_stations_availability_sync:
a missing status defaults to UNKNOWN, the value is upper-cased, and BUSY is
rewritten to OCCUPIED. -/
def normAvailabilityStatus (s : Option String) : String :=
  let u := (s.getD "UNKNOWN").toUpper
  if u = "BUSY" then "OCCUPIED" else u

/-- Parsing of one successful chunk response inside
get_stations_availability_sync (tomtom_service.py lines 453 to 482):
entries without a truthy id are dropped, as are connectors without one. -/
def parseChunk (entries : List RawStation) : List StationAvail :=
  entries.filterMap (fun r =>
    match r.id with
    | none => none
    | some i =>
      if i = "" then none
      else some
        { tomtom_id := i
          overall_status := normAvailabilityStatus r.status
          connectors := r.connectors.filterMap (fun c =>
            match c.id with
            | none => none
            | some ci =>
              if ci = "" then none
              else some { id := ci, status := normAvailabilityStatus c.status }) })

/-- TomTomService.get_stations_availability_sync (lines 423 to 494): the id
list is cut into chunks of TOMTOM_AVAILABILITY_CHUNK_SIZE = 20; each chunk is
fetched through the oracle, which yields the parsed-JSON entries on success,
ok none when the response lacks the chargingAvailability key, and error when
the request raised; a raised or invalid chunk is logged and skipped, so its
data is simply absent from the merged result, and later chunks still run.
The function syncChunkData is the contribution of one chunk, and
get_stations_availability_sync merges the chunks. -/
def syncChunkData
    (fetch : List String → Except Unit (Option (List RawStation)))
    (c : List String) : List StationAvail :=
  match fetch c with
  | .ok (some entries) => parseChunk entries
  | .ok none => []
  | .error _ => []

/-- Merge of the per-chunk data of get_stations_availability_sync. -/
def get_stations_availability_sync
    (fetch : List String → Except Unit (Option (List RawStation)))
    (ids : List String) : List StationAvail :=
  (chunksOf 20 ids).foldl (fun acc c => acc ++ syncChunkData fetch c) []

/-- TomTomService._fetch_availability_chunk (lines 539 to 586): on a response
carrying a chargingAvailability id string, every requested id that appears in
it receives a status drawn by random.choice from AVAILABLE, OCCUPIED and
OUT_OF_ORDER (the draw is the oracle rnd) and every other requested id maps
to UNKNOWN; a response without the key maps every requested id to AVAILABLE;
and the enclosing except handler answers a raised request by mapping every
requested id to the default AVAILABLE as well. -/
def fetch_availability_chunk
    (fetch : List String → Except Unit (Option (List String)))
    (rnd : String → String) (ids : List String) : List (String × String) :=
  match fetch ids with
  | .error _ => ids.map (fun i => (i, "AVAILABLE"))
  | .ok none => ids.map (fun i => (i, "AVAILABLE"))
  | .ok (some returned_ids) =>
    ids.map (fun i => (i, if i ∈ returned_ids then rnd i else "UNKNOWN"))

/-- TomTomService._fetch_availability_for_stations (lines 526 to 537): chunks
of 10, each fetched and merged into the availability map. -/
def fetch_availability_for_stations
    (fetch : List String → Except Unit (Option (List String)))
    (rnd : String → String) (ids : List String) : List (String × String) :=
  (chunksOf 10 ids).foldl
    (fun acc c => acc ++ fetch_availability_chunk fetch rnd c) []

/-- Raw connector entry of a TomTom POI search result as read by
_calculate_station_status: the state sits under availability.current.state
and defaults to UNKNOWN when any of those keys is absent. -/
structure PoiConnector where
  state : Option String
deriving DecidableEq, Repr

/-- TomTomService._calculate_station_status (tomtom_service.py lines 258 to
278): with no connector data the overall status is UNKNOWN; otherwise the
first match among AVAILABLE, OCCUPIED and OUT_OF_SERVICE in the collected
connector states wins, and anything else yields UNKNOWN.  OUT_OF_SERVICE is
passed through as is, so the parser can hand a station status outside the
canonical five to its callers. -/
def calculate_station_status (connectors_data : List PoiConnector) : String :=
  if connectors_data.isEmpty then "UNKNOWN"
  else
    let connector_statuses :=
      connectors_data.map (fun c => c.state.getD "UNKNOWN")
    if "AVAILABLE" ∈ connector_statuses then "AVAILABLE"
    else if "OCCUPIED" ∈ connector_statuses then "OCCUPIED"
    else if "OUT_OF_SERVICE" ∈ connector_statuses then "OUT_OF_SERVICE"
    else "UNKNOWN"

/-- TomTomService._enrich_with_availability (tomtom_service.py lines 496 to
524): collects the truthy station ids, fetches the availability map through
the chunked fetcher, and overwrites the status of every station whose id the
map contains with the fetched value, leaving the others unchanged (the
accompanying last_updated refresh is carried by the subsequent cache write
in this embedding, whose station model has no last_updated field). -/
def enrich_with_availability
    (fetch : List String → Except Unit (Option (List String)))
    (rnd : String → String) (stations : List StationModel) :
    List StationModel :=
  let station_ids :=
    (stations.map (fun s => s.tomtom_id)).filter (fun i => !(i == ""))
  let availability_map := fetch_availability_for_stations fetch rnd station_ids
  stations.map (fun s =>
    match availability_map.lookup s.tomtom_id with
    | some v => { s with status := v }
    | none => s)

/-! ### Cache-aside search (app/api/stations.py) -/

/-- Threshold below which the local result triggers the TomTom call. -/
def MIN_STATIONS_THRESHOLD : Nat := 5

/-- cache_tomtom_stations (stations.py lines 150 to 181): each fetched
station absent from the collection is inserted through create_station, each
present one has its status, connectors, last_updated and data_source set
through update_station_status; the returned count tallies the inserts. -/
def cache_step (now : Nat) (acc : Store × Nat) (st : StationModel) :
    Store × Nat :=
  match find_by_tomtom_id acc.1 st.tomtom_id with
  | none => (create_station acc.1 st now, acc.2 + 1)
  | some _ =>
    ((update_station_status acc.1 st.tomtom_id st.status now
      { connectors := some st.connectors
        data_source := some "TOMTOM"
        last_updated := some now }).1, acc.2)

/-- Loop of cache_tomtom_stations over the fetched stations. -/
def cache_tomtom_stations (now : Nat) (store : Store)
    (tomtom_stations : List StationModel) : Store × Nat :=
  tomtom_stations.foldl (cache_step now) (store, 0)

/-- Response of the enhanced nearby search, with the search_params fields the
claims mention. -/
structure SearchResponse where
  stations : List StationDoc
  total_found : Nat
  data_source : String
  tomtom_stations_added : Option Nat
deriving Repr

/-- search_nearby_stations_enhanced (stations.py lines 60 to 148).  The
adapter argument is the awaited outcome of tomtom_service.get_stations_in_area:
ok with the fetched list, or error when the call raised TomTomAPIException,
which the handler catches and answers with the step-1 local result; an ok
empty list also falls through to the local result.  The enriched branch
caches the fetched stations and re-queries the collection. -/
def search_nearby_stations_enhanced (d : StationDoc → ℚ) (now : Nat)
    (store : Store) (radius_meters : ℚ) (status_filter : Option String)
    (limit : Nat) (adapter : Except Unit (List StationModel)) :
    SearchResponse × Store :=
  let local_stations := find_nearby_stations d store radius_meters status_filter limit
  if local_stations.length < MIN_STATIONS_THRESHOLD then
    match adapter with
    | .error _ =>
      (⟨local_stations, local_stations.length, "local_database", none⟩, store)
    | .ok tomtom_stations =>
      if tomtom_stations.isEmpty then
        (⟨local_stations, local_stations.length, "local_database", none⟩, store)
      else
        let store1 := (cache_tomtom_stations now store tomtom_stations).1
        let updated := find_nearby_stations d store1 radius_meters status_filter limit
        (⟨updated, updated.length, "local_plus_tomtom",
          some tomtom_stations.length⟩, store1)
  else
    (⟨local_stations, local_stations.length, "local_database", none⟩, store)

/-- Membership of a station id in the collection. -/
def containsId (store : Store) (tomtom_id : String) : Bool :=
  store.any (fun d => d.tomtom_id == tomtom_id)

/-! ### Concrete sample data used by witnesses and counterexamples -/

/-- Sample stored station document. -/
def docS1 : StationDoc :=
  { tomtom_id := "S1"
    name := "Station One"
    coordinates := (23, 38)
    address := "Athens"
    connectors := []
    status := "AVAILABLE"
    last_updated := 0
    data_source := "TOMTOM"
    availability_status_changes_count := 0 }

/-- Dict view of the sample station, as the bulk sweep hands it to
process_station_status. -/
def dictS1 : StationDict :=
  { tomtom_id := some "S1", status := some "AVAILABLE", name := some "Station One" }

/-- Sample fetched station with the same id as the stored sample. -/
def modelS1 : StationModel :=
  { tomtom_id := "S1"
    name := "Station One"
    coordinates := (23, 38)
    address := "Athens"
    connectors := []
    status := "AVAILABLE" }

/-- Sample fetched station with a fresh id. -/
def modelS2 : StationModel :=
  { tomtom_id := "S2"
    name := "Station Two"
    coordinates := (0, 0)
    address := "Athens"
    connectors := []
    status := "OCCUPIED" }

/-- Second sample fetched station with a fresh id. -/
def modelS3 : StationModel :=
  { tomtom_id := "S3"
    name := "Station Three"
    coordinates := (1, 1)
    address := "Athens"
    connectors := []
    status := "UNKNOWN" }

/-- Sample fetched station whose status carries exactly what the parser
computes from one OUT_OF_SERVICE connector, as _parse_tomtom_station does. -/
def modelOOS : StationModel :=
  { tomtom_id := "S4"
    name := "Station Four"
    coordinates := (5, 5)
    address := "Athens"
    connectors := []
    status := calculate_station_status [⟨some "OUT_OF_SERVICE"⟩] }

/-- Availability oracle answering every chunk with the id S2, so the
requested station is treated as covered by availability data. -/
def c9fetch : List String → Except Unit (Option (List String)) :=
  fun _ => .ok (some ["S2"])

/-- Random draw oracle landing on OUT_OF_ORDER, one of the three values of
the simulated random.choice in _fetch_availability_chunk. -/
def c9rnd : String → String := fun _ => "OUT_OF_ORDER"

/-! ### Helper lemmas about the store operations -/

theorem applyStatusUpdate_tomtom_id (new_status : String) (now : Nat)
    (e : UpdateExtras) (d : StationDoc) :
    (applyStatusUpdate new_status now e d).tomtom_id = d.tomtom_id := rfl

theorem applyStatusUpdate_count (new_status : String) (now : Nat)
    (e : UpdateExtras) (d : StationDoc) :
    (applyStatusUpdate new_status now e d).availability_status_changes_count
      = d.availability_status_changes_count := rfl

theorem update_preserves_ids (store : Store) (tid st : String) (now : Nat)
    (e : UpdateExtras) :
    ((update_station_status store tid st now e).1).map (fun d => d.tomtom_id)
      = store.map (fun d => d.tomtom_id) := by
  induction store with
  | nil => rfl
  | cons d rest ih =>
    simp only [update_station_status]
    split
    · simp [applyStatusUpdate_tomtom_id]
    · simpa using ih

theorem find_update_self (store : Store) (tid st : String) (now : Nat)
    (e : UpdateExtras) :
    find_by_tomtom_id (update_station_status store tid st now e).1 tid
      = (find_by_tomtom_id store tid).map (applyStatusUpdate st now e) := by
  induction store with
  | nil => rfl
  | cons d rest ih =>
    simp only [update_station_status, find_by_tomtom_id]
    by_cases h : d.tomtom_id = tid
    · simp [List.find?, h, applyStatusUpdate_tomtom_id]
    · have hb : (d.tomtom_id == tid) = false := by
        simpa using h
      simp only [hb, if_false]
      simpa [find_by_tomtom_id, List.find?, hb,
        applyStatusUpdate_tomtom_id] using ih

theorem find_update_none (store : Store) (tid st : String) (now : Nat)
    (e : UpdateExtras) (j : String)
    (h : find_by_tomtom_id store j = none) :
    find_by_tomtom_id (update_station_status store tid st now e).1 j = none := by
  induction store with
  | nil => rfl
  | cons d rest ih =>
    simp only [find_by_tomtom_id, List.find?] at h
    by_cases hd : (d.tomtom_id == j) = true
    · simp [hd] at h
    · have hd' : (d.tomtom_id == j) = false := by
        simpa using hd
      simp only [hd'] at h
      simp only [update_station_status]
      split
      · simp [find_by_tomtom_id, List.find?, applyStatusUpdate_tomtom_id, hd', h]
      · simpa [find_by_tomtom_id, List.find?, hd'] using ih h

theorem find_create_ne (store : Store) (s : StationModel) (now : Nat)
    (j : String) (h : (s.tomtom_id == j) = false) :
    find_by_tomtom_id (create_station store s now) j
      = find_by_tomtom_id store j := by
  induction store with
  | nil =>
    simp [find_by_tomtom_id, create_station, List.find?, stationToDoc, h]
  | cons d rest ih =>
    by_cases hd : (d.tomtom_id == j) = true
    · simp [find_by_tomtom_id, create_station, List.find?, hd]
    · have hd' : (d.tomtom_id == j) = false := by simpa using hd
      simpa [find_by_tomtom_id, create_station, List.find?, hd'] using ih

theorem find_create_self (store : Store) (s : StationModel) (now : Nat)
    (h : find_by_tomtom_id store s.tomtom_id = none) :
    find_by_tomtom_id (create_station store s now) s.tomtom_id
      = some (stationToDoc s now) := by
  induction store with
  | nil =>
    simp [find_by_tomtom_id, create_station, List.find?, stationToDoc]
  | cons d rest ih =>
    simp only [find_by_tomtom_id, List.find?] at h
    by_cases hd : (d.tomtom_id == s.tomtom_id) = true
    · simp [hd] at h
    · have hd' : (d.tomtom_id == s.tomtom_id) = false := by simpa using hd
      simp only [hd'] at h
      simpa [find_by_tomtom_id, create_station, List.find?, hd'] using ih h

theorem containsId_of_find_some (store : Store) (j : String)
    (d : StationDoc) (h : find_by_tomtom_id store j = some d) :
    containsId store j = true := by
  induction store with
  | nil => simp [find_by_tomtom_id, List.find?] at h
  | cons e rest ih =>
    by_cases he : (e.tomtom_id == j) = true
    · simp [containsId, List.any_cons, he]
    · have he' : (e.tomtom_id == j) = false := by simpa using he
      simp only [find_by_tomtom_id, List.find?, he'] at h
      have hr := ih h
      simp only [containsId, List.any_cons, he', Bool.false_or]
      simpa [containsId] using hr

theorem containsId_create (store : Store) (s : StationModel) (now : Nat)
    (i : String) :
    containsId (create_station store s now) i
      = (containsId store i || (s.tomtom_id == i)) := by
  simp [containsId, create_station, List.any_append, stationToDoc]

theorem containsId_update (store : Store) (tid st : String) (now : Nat)
    (e : UpdateExtras) (i : String) :
    containsId (update_station_status store tid st now e).1 i
      = containsId store i := by
  induction store with
  | nil => rfl
  | cons d rest ih =>
    simp only [update_station_status]
    split
    · simp [containsId, List.any_cons, applyStatusUpdate_tomtom_id]
    · have hr := ih
      simp only [containsId, List.any_cons] at hr ⊢
      rw [hr]

theorem cache_step_containsId (now : Nat) (acc : Store × Nat)
    (st : StationModel) (i : String) :
    containsId (cache_step now acc st).1 i
      = (containsId acc.1 i || (st.tomtom_id == i)) := by
  unfold cache_step
  cases hf : find_by_tomtom_id acc.1 st.tomtom_id with
  | none => simp [containsId_create]
  | some d =>
    have hc := containsId_of_find_some acc.1 st.tomtom_id d hf
    simp only [containsId_update]
    by_cases hi : (st.tomtom_id == i) = true
    · have : st.tomtom_id = i := by simpa using hi
      subst this
      simp [hc]
    · have hi' : (st.tomtom_id == i) = false := by simpa using hi
      simp [hi']

theorem cache_fold_containsId (now : Nat) (ts : List StationModel)
    (acc : Store × Nat) (i : String) :
    containsId (ts.foldl (cache_step now) acc).1 i
      = (containsId acc.1 i || ts.any (fun s => s.tomtom_id == i)) := by
  induction ts generalizing acc with
  | nil => simp
  | cons t ts ih =>
    simp only [List.foldl_cons, List.any_cons]
    rw [ih, cache_step_containsId]
    cases containsId acc.1 i <;> cases (t.tomtom_id == i) <;> simp

theorem cache_containsId (now : Nat) (store : Store)
    (ts : List StationModel) (i : String) :
    containsId (cache_tomtom_stations now store ts).1 i
      = (containsId store i || ts.any (fun s => s.tomtom_id == i)) := by
  unfold cache_tomtom_stations
  exact cache_fold_containsId now ts (store, 0) i

theorem mem_foldl_append {α β : Type} (g : β → List α) (l : List β)
    (init : List α) (a : α) :
    a ∈ l.foldl (fun acc c => acc ++ g c) init ↔
      a ∈ init ∨ ∃ c ∈ l, a ∈ g c := by
  induction l generalizing init with
  | nil => simp
  | cons c cs ih =>
    simp only [List.foldl_cons]
    rw [ih]
    simp only [List.mem_append, List.mem_cons]
    constructor
    · rintro (⟨h | h⟩ | ⟨c2, hc2, ha⟩)
      · exact Or.inl h
      · exact Or.inr ⟨c, Or.inl rfl, h⟩
      · exact Or.inr ⟨c2, Or.inr hc2, ha⟩
    · rintro (h | ⟨c2, (rfl | hc2), ha⟩)
      · exact Or.inl (Or.inl h)
      · exact Or.inl (Or.inr ha)
      · exact Or.inr ⟨c2, hc2, ha⟩

/-! ### Claim C1: the status-change counter under update_station_status -/

/-- C1, counterexample to the claim as stated: for the stored station docS1
with status AVAILABLE and counter 0, a write that stores the different
status OCCUPIED leaves the counter at 0 instead of increasing it to 1; the
$set document of update_station_status never mentions
availability_status_changes_count, and no caller passes it either. -/
theorem C1_counter_counterexample :
    ¬ (((update_station_status [docS1] "S1" "OCCUPIED" 5 {}).1.map
        (fun d => d.availability_status_changes_count)) = [1]) := by
  decide

/-- C1, amended: a status write through update_station_status never modifies
the status-change counter of any station, whether the stored status is equal
to or different from the written one; in particular calling it twice with
the same status increments the counter zero times, which is at most once. -/
theorem C1_counter_never_changes (store : Store) (tid st : String)
    (now : Nat) (e : UpdateExtras) :
    ((update_station_status store tid st now e).1).map
        (fun d => d.availability_status_changes_count)
      = store.map (fun d => d.availability_status_changes_count) := by
  induction store with
  | nil => rfl
  | cons d rest ih =>
    simp only [update_station_status]
    split
    · simp [applyStatusUpdate_count]
    · simpa using ih

/-! ### Claim C2: the bulk speed sweep on a changed station -/

/-- C2: evaluation of the bulk sweep at the failing input, a store holding
station S1 with status AVAILABLE while the bulk map reports OCCUPIED.  The
per-station task writes the new status and then raises AttributeError on the
nonexistent repository method add_historical_availability, so no historical
snapshot is written; the code path appends no ChangeEvent on any branch; and
the run aborts with the gathered exception before the broadcast, so no
status_update message is emitted at all. -/
theorem C2_bulk_sweep_fails_on_change :
    (process_station_status 5 [docS1] [("S1", "OCCUPIED")] dictS1).result
        = .error (.attributeError "add_historical_availability") ∧
    (process_station_status 5 [docS1] [("S1", "OCCUPIED")] dictS1).store.map
        (fun d => d.status) = ["OCCUPIED"] ∧
    (bulk_poll_run 5 [docS1] [] [("S1", "OCCUPIED")] [dictS1]).failed = true ∧
    (bulk_poll_run 5 [docS1] [] [("S1", "OCCUPIED")] [dictS1]).broadcasts
        = [] ∧
    (bulk_poll_run 5 [docS1] [] [("S1", "OCCUPIED")] [dictS1]).events = [] := by
  refine ⟨rfl, by decide, rfl, rfl, rfl⟩

/-! ### Claim C3: stations absent from the bulk-status map are untouched -/

/-- C3: a station whose id does not appear in the bulk-status map (and also
one whose dict carries no usable id at all) is left completely untouched by
process_station_status: the collection is returned unchanged, no change is
reported to the batch, and the function returns without error, so no OFFLINE
transition, no historical snapshot attempt and no ChangeEvent can arise for
it. -/
theorem C3_missing_id_untouched (now : Nat) (store : Store)
    (bulk_status : List (String × String)) (station : StationDict)
    (h : ∀ v, station.tomtom_id = some v → bulk_status.lookup v = none) :
    (process_station_status now store bulk_status station).store = store ∧
    (process_station_status now store bulk_status station).result
      = .ok none := by
  unfold process_station_status
  cases hid : station.tomtom_id with
  | none => simp [idFalsy]
  | some v =>
    by_cases hv : v = ""
    · subst hv
      simp [idFalsy]
    · have hb := h v hid
      have hfalsy : idFalsy (some v) = false := by
        simpa [idFalsy] using hv
      simp [hfalsy, hb]

/-- C3 witness: the concrete station S1 is untouched by a run whose bulk map
only mentions another id. -/
theorem C3_missing_id_untouched_witness :
    (process_station_status 5 [docS1] [("S9", "OFFLINE")] dictS1).store
        = [docS1] ∧
    (process_station_status 5 [docS1] [("S9", "OFFLINE")] dictS1).result
        = .ok none :=
  C3_missing_id_untouched 5 [docS1] [("S9", "OFFLINE")] dictS1
    (by intro v hv; cases hv; decide)

/-! ### Claim C9: canonical status values and alias handling -/

/-- C9, counterexample to the claim as stated, through the interactive
cache-aside path: the parser computes OUT_OF_SERVICE from a station whose
only connector state is OUT_OF_SERVICE, the search handler caches the
fetched station on an empty store, and the store then holds the status
OUT_OF_SERVICE, which is not one of the five canonical values. -/
theorem C9_canonical_status_counterexample :
    calculate_station_status [⟨some "OUT_OF_SERVICE"⟩] = "OUT_OF_SERVICE" ∧
    (search_nearby_stations_enhanced (fun _ => 0) 7 [] 100 none 10
        (.ok [modelOOS])).2.map (fun d => d.status) = ["OUT_OF_SERVICE"] ∧
    ¬ ("OUT_OF_SERVICE" ∈ (["AVAILABLE", "OCCUPIED", "OFFLINE",
        "MAINTENANCE", "UNKNOWN"] : List String)) := by
  refine ⟨by decide, ?_, by decide⟩
  have hstore : (search_nearby_stations_enhanced (fun _ => 0) 7 [] 100 none
      10 (.ok [modelOOS])).2 = (cache_tomtom_stations 7 [] [modelOOS]).1 := by
    have hloc : find_nearby_stations (fun _ => (0 : ℚ)) [] 100 none 10
        = [] := by
      simp [find_nearby_stations]
    simp [search_nearby_stations_enhanced, hloc, MIN_STATIONS_THRESHOLD]
  rw [hstore]
  decide

/-- C9, amended: the store write boundary of the cache-aside path performs
no normalization, storing each fetched station status verbatim whether the
station is inserted or updated; and the adapter hands such writes
non-canonical values: the parser yields OUT_OF_SERVICE when no connector is
AVAILABLE or OCCUPIED but one is OUT_OF_SERVICE, and the enrichment step
overwrites a mapped station status with the availability-map value, whose
simulated draws range over AVAILABLE, OCCUPIED and OUT_OF_ORDER.  Alias
handling is also not confined to the adapter: the batch task function
map_status_for_schema rewrites the alias BUSY to OCCUPIED outside it. -/
theorem C9_status_written_verbatim :
    (∀ (now : Nat) (store : Store) (s : StationModel),
        (find_by_tomtom_id (cache_tomtom_stations now store [s]).1
          s.tomtom_id).map (fun d => d.status) = some s.status) ∧
    (∀ cs : List PoiConnector,
        "AVAILABLE" ∉ cs.map (fun c => c.state.getD "UNKNOWN") →
        "OCCUPIED" ∉ cs.map (fun c => c.state.getD "UNKNOWN") →
        "OUT_OF_SERVICE" ∈ cs.map (fun c => c.state.getD "UNKNOWN") →
        calculate_station_status cs = "OUT_OF_SERVICE") ∧
    (∀ (fetch : List String → Except Unit (Option (List String)))
        (rnd : String → String) (s : StationModel) (v : String),
        (s.tomtom_id == "") = false →
        (fetch_availability_for_stations fetch rnd [s.tomtom_id]).lookup
            s.tomtom_id = some v →
        enrich_with_availability fetch rnd [s] = [{ s with status := v }]) ∧
    map_status_for_schema (some "BUSY") = "OCCUPIED" := by
  refine ⟨?_, ?_, ?_, by decide⟩
  · intro now store s
    simp only [cache_tomtom_stations, List.foldl_cons, List.foldl_nil,
      cache_step]
    cases hf : find_by_tomtom_id store s.tomtom_id with
    | none =>
      simp only [hf]
      rw [find_create_self store s now hf]
      rfl
    | some d =>
      simp only [hf]
      rw [find_update_self, hf]
      rfl
  · intro cs h1 h2 h3
    cases cs with
    | nil => simp at h3
    | cons c rest =>
      simp only [calculate_station_status, List.isEmpty_cons,
        Bool.false_eq_true, if_false]
      rw [if_neg h1, if_neg h2, if_pos h3]
  · intro fetch rnd s v hne hl
    simp only [enrich_with_availability, List.map_cons, List.map_nil,
      List.filter_cons, List.filter_nil, hne, Bool.not_false, if_true, hl]

/-- C9 witness: the amended statement at concrete inputs, through the
theorem itself: the OUT_OF_SERVICE station cached verbatim on an empty
store, the parser computing OUT_OF_SERVICE, and the enrichment assigning the
OUT_OF_ORDER draw. -/
theorem C9_status_written_verbatim_witness :
    ((find_by_tomtom_id (cache_tomtom_stations 7 [] [modelOOS]).1
        modelOOS.tomtom_id).map (fun d => d.status) = some modelOOS.status) ∧
    calculate_station_status [⟨some "OUT_OF_SERVICE"⟩] = "OUT_OF_SERVICE" ∧
    enrich_with_availability c9fetch c9rnd [modelS2]
        = [{ modelS2 with status := "OUT_OF_ORDER" }] ∧
    map_status_for_schema (some "BUSY") = "OCCUPIED" :=
  ⟨C9_status_written_verbatim.1 7 [] modelOOS,
    C9_status_written_verbatim.2.1 [⟨some "OUT_OF_SERVICE"⟩] (by decide)
      (by decide) (by decide),
    C9_status_written_verbatim.2.2.1 c9fetch c9rnd modelS2 "OUT_OF_ORDER"
      (by decide) (by decide),
    C9_status_written_verbatim.2.2.2⟩

/-! ### Claim C10: totality and range of map_status_for_schema -/

/-- C10: map_status_for_schema is total with range inside the four values
AVAILABLE, OCCUPIED, OFFLINE and MAINTENANCE; it maps OUT_OF_ORDER to
OFFLINE, BUSY and OCCUPIED to OCCUPIED, AVAILABLE and MAINTENANCE to
themselves, and every other input, including UNKNOWN and Python None, to
OFFLINE; consequently the historical snapshot the batch sweep builds for a
station whose status is UNKNOWN records the station status OFFLINE. -/
theorem C10_map_status_total :
    (∀ s : Option String,
        map_status_for_schema s = "AVAILABLE" ∨
        map_status_for_schema s = "OCCUPIED" ∨
        map_status_for_schema s = "OFFLINE" ∨
        map_status_for_schema s = "MAINTENANCE") ∧
    map_status_for_schema (some "OUT_OF_ORDER") = "OFFLINE" ∧
    map_status_for_schema (some "BUSY") = "OCCUPIED" ∧
    map_status_for_schema (some "OCCUPIED") = "OCCUPIED" ∧
    map_status_for_schema (some "AVAILABLE") = "AVAILABLE" ∧
    map_status_for_schema (some "MAINTENANCE") = "MAINTENANCE" ∧
    (∀ s : Option String,
        s ≠ some "OUT_OF_ORDER" → s ≠ some "BUSY" → s ≠ some "OCCUPIED" →
        s ≠ some "AVAILABLE" → s ≠ some "MAINTENANCE" →
        map_status_for_schema s = "OFFLINE") ∧
    map_status_for_schema (some "UNKNOWN") = "OFFLINE" ∧
    map_status_for_schema none = "OFFLINE" ∧
    (∀ (st : StationModel) (now : Nat), st.status = "UNKNOWN" →
        (buildHistoricalDoc st now).station_status = "OFFLINE") := by
  refine ⟨?_, by decide, by decide, by decide, by decide, by decide, ?_,
    by decide, by decide, ?_⟩
  · intro s
    unfold map_status_for_schema
    split_ifs <;> simp
  · intro s h1 h2 h3 h4 h5
    unfold map_status_for_schema
    rw [if_neg h1, if_neg ?_, if_neg h4, if_neg h5]
    rintro (g | g)
    · exact h2 g
    · exact h3 g
  · intro st now h
    simp [buildHistoricalDoc, map_status_for_schema, h]

/-- C10 witness: the conditional conjuncts at concrete inputs, through the
theorem itself. -/
theorem C10_map_status_total_witness :
    map_status_for_schema (some "SOMETHING_ELSE") = "OFFLINE" ∧
    (buildHistoricalDoc modelS3 5).station_status = "OFFLINE" :=
  ⟨C10_map_status_total.2.2.2.2.2.2.1 (some "SOMETHING_ELSE") (by decide)
      (by decide) (by decide) (by decide) (by decide),
    C10_map_status_total.2.2.2.2.2.2.2.2.2 modelS3 5 rfl⟩

theorem batch_step_existing_eq (now : Nat) (acc : BatchAcc)
    (st : StationModel) (dX : StationDoc)
    (h : find_by_tomtom_id acc.store st.tomtom_id = some dX)
    (he : dX.status = st.status) :
    batch_step now acc st = acc := by
  simp only [batch_step, h]
  rw [if_neg]
  intro hn
  exact hn he

theorem batch_step_existing_ne (now : Nat) (acc : BatchAcc)
    (st : StationModel) (dX : StationDoc)
    (h : find_by_tomtom_id acc.store st.tomtom_id = some dX)
    (he : dX.status ≠ st.status) :
    batch_step now acc st =
      ⟨(update_station_status acc.store st.tomtom_id st.status now
          { connectors := some st.connectors
            data_source := some "TOMTOM"
            last_updated := some now }).1,
        acc.historical ++ [buildHistoricalDoc st now],
        acc.inserted, acc.updated + 1, acc.saved + 1⟩ := by
  simp only [batch_step, h]
  rw [if_pos he]

theorem batch_step_new (now : Nat) (acc : BatchAcc) (st : StationModel)
    (h : find_by_tomtom_id acc.store st.tomtom_id = none) :
    batch_step now acc st =
      ⟨create_station acc.store st now,
        acc.historical ++ [buildHistoricalDoc st now],
        acc.inserted + 1, acc.updated, acc.saved + 1⟩ := by
  simp only [batch_step, h]

/-! ### Claim C8: radius, limit and ordering of find_nearby_stations -/

/-- C8: for every geo query (any store, any distance assignment of the
geospatial index, any radius, status filter and limit), find_nearby_stations
returns at most limit stations, never one whose distance from the query
point exceeds the radius, and the result is ordered nearest first. -/
theorem C8_find_near_spec (d : StationDoc → ℚ) (store : Store) (radius : ℚ)
    (sf : Option String) (limit : Nat) :
    (find_nearby_stations d store radius sf limit).length ≤ limit ∧
    (∀ s ∈ find_nearby_stations d store radius sf limit, d s ≤ radius) ∧
    List.Pairwise (fun a b => d a ≤ d b)
      (find_nearby_stations d store radius sf limit) := by
  have htrans : ∀ a b c : StationDoc, decide (d a ≤ d b) = true →
      decide (d b ≤ d c) = true → decide (d a ≤ d c) = true := by
    intro a b c h1 h2
    simp only [decide_eq_true_eq] at h1 h2 ⊢
    exact le_trans h1 h2
  have htotal : ∀ a b : StationDoc,
      (decide (d a ≤ d b) || decide (d b ≤ d a)) = true := by
    intro a b
    simp only [Bool.or_eq_true, decide_eq_true_eq]
    exact le_total _ _
  simp only [find_nearby_stations]
  refine ⟨?_, ?_, ?_⟩
  · rw [List.length_mergeSort]
    exact List.length_take_le _ _
  · intro s hs
    rw [List.mem_mergeSort] at hs
    have hs2 := List.mem_of_mem_take hs
    rw [List.mem_mergeSort] at hs2
    have hp := List.of_mem_filter hs2
    simp only [Bool.and_eq_true, decide_eq_true_eq] at hp
    exact hp.2
  · exact (List.sorted_mergeSort htrans htotal _).imp
      (fun h => of_decide_eq_true h)

/-- C8 witness: the instantiated length bound on an empty store, through the
theorem itself. -/
theorem C8_find_near_spec_witness :
    (find_nearby_stations (fun _ => 0) [] 1 none 5).length ≤ 5 ∧
    (docS1 ∈ find_nearby_stations (fun _ => 0) [] 1 none 5 →
      (0 : ℚ) ≤ 1) :=
  ⟨(C8_find_near_spec (fun _ => 0) [] 1 none 5).1,
    fun h => (C8_find_near_spec (fun _ => 0) [] 1 none 5).2.1 docS1 h⟩

/-! ### Claim C4: the batch reconciliation summary -/

/-- C4, counterexample to the claim as stated: the provider returns 3
stations of which station S1 already exists with an unchanged status and S2
and S3 are new; the summary does report new equal to 2, but only 2
historical rows carry the run timestamp, not 3, because an existing station
receives a snapshot only when its status changed; and the sweep computes no
missing-id diff and reports no missing count at all. -/
theorem C4_batch_scenario_counterexample :
    (async_batch_update 9 [docS1] [] [modelS1, modelS2, modelS3]).summary.new_stations
        = 2 ∧
    ¬ ((((async_batch_update 9 [docS1] []
        [modelS1, modelS2, modelS3]).historical.filter
        (fun h => h.timestamp == 9)).length) = 3) := by
  decide

/-- C4, amended: for a fetched batch of three stations of which the first
already exists in the store and the other two are new with distinct ids, the
returned summary reports new_stations 2, updated_stations 1 or 0 according
to whether the stored status of the existing station differs from the
fetched one, and historical_records 3 in the changed case but only 2 in the
unchanged case; every historical row is either a pre-existing one or is
stamped with the timestamp of this run.  The summary carries no missing
count and the function computes no fetched-minus-known or known-minus-fetched
id sets. -/
theorem C4_batch_scenario (now : Nat) (store : Store)
    (hist : List HistoricalDoc) (x y z : StationModel) (dX : StationDoc)
    (hx : find_by_tomtom_id store x.tomtom_id = some dX)
    (hy : find_by_tomtom_id store y.tomtom_id = none)
    (hz : find_by_tomtom_id store z.tomtom_id = none)
    (hyz : (y.tomtom_id == z.tomtom_id) = false) :
    (async_batch_update now store hist [x, y, z]).summary.new_stations = 2 ∧
    (async_batch_update now store hist [x, y, z]).summary.updated_stations
      = (if dX.status = x.status then 0 else 1) ∧
    (async_batch_update now store hist [x, y, z]).summary.historical_records
      = (if dX.status = x.status then 2 else 3) ∧
    (∀ hd ∈ (async_batch_update now store hist [x, y, z]).historical,
        hd ∈ hist ∨ hd.timestamp = now) := by
  have hunfold : async_batch_update now store hist [x, y, z] =
      ⟨{ status := "success"
         message := "Processed " ++ toString (3 : Nat) ++ " stations"
         new_stations := (batch_step now (batch_step now
           (batch_step now ⟨store, hist, 0, 0, 0⟩ x) y) z).inserted
         updated_stations := (batch_step now (batch_step now
           (batch_step now ⟨store, hist, 0, 0, 0⟩ x) y) z).updated
         historical_records := (batch_step now (batch_step now
           (batch_step now ⟨store, hist, 0, 0, 0⟩ x) y) z).saved },
        (batch_step now (batch_step now
          (batch_step now ⟨store, hist, 0, 0, 0⟩ x) y) z).store,
        (batch_step now (batch_step now
          (batch_step now ⟨store, hist, 0, 0, 0⟩ x) y) z).historical⟩ := by
    simp [async_batch_update]
  by_cases hst : dX.status = x.status
  · have ex : batch_step now ⟨store, hist, 0, 0, 0⟩ x
        = ⟨store, hist, 0, 0, 0⟩ :=
      batch_step_existing_eq now ⟨store, hist, 0, 0, 0⟩ x dX hx hst
    have ey : batch_step now (⟨store, hist, 0, 0, 0⟩ : BatchAcc) y
        = ⟨create_station store y now, hist ++ [buildHistoricalDoc y now],
            1, 0, 1⟩ :=
      batch_step_new now ⟨store, hist, 0, 0, 0⟩ y hy
    have hfz : find_by_tomtom_id (create_station store y now) z.tomtom_id
        = none := by
      rw [find_create_ne store y now z.tomtom_id hyz]
      exact hz
    have ez : batch_step now
        (⟨create_station store y now, hist ++ [buildHistoricalDoc y now],
          1, 0, 1⟩ : BatchAcc) z
        = ⟨create_station (create_station store y now) z now,
            (hist ++ [buildHistoricalDoc y now])
              ++ [buildHistoricalDoc z now], 2, 0, 2⟩ :=
      batch_step_new now _ z hfz
    rw [hunfold, ex, ey, ez]
    refine ⟨rfl, by simp [hst], by simp [hst], ?_⟩
    intro hd hmem
    simp only [List.append_assoc, List.mem_append, List.mem_cons,
      List.mem_singleton, List.not_mem_nil, or_false] at hmem
    rcases hmem with hmem | hmem | hmem
    · exact Or.inl hmem
    · subst hmem; exact Or.inr rfl
    · subst hmem; exact Or.inr rfl
  · have ex : batch_step now ⟨store, hist, 0, 0, 0⟩ x
        = ⟨(update_station_status store x.tomtom_id x.status now
              { connectors := some x.connectors
                data_source := some "TOMTOM"
                last_updated := some now }).1,
            hist ++ [buildHistoricalDoc x now], 0, 1, 1⟩ :=
      batch_step_existing_ne now ⟨store, hist, 0, 0, 0⟩ x dX hx hst
    have hfy : find_by_tomtom_id
        (update_station_status store x.tomtom_id x.status now
          { connectors := some x.connectors
            data_source := some "TOMTOM"
            last_updated := some now }).1 y.tomtom_id = none :=
      find_update_none store x.tomtom_id x.status now _ y.tomtom_id hy
    have ey : batch_step now
        (⟨(update_station_status store x.tomtom_id x.status now
            { connectors := some x.connectors
              data_source := some "TOMTOM"
              last_updated := some now }).1,
          hist ++ [buildHistoricalDoc x now], 0, 1, 1⟩ : BatchAcc) y
        = ⟨create_station
            (update_station_status store x.tomtom_id x.status now
              { connectors := some x.connectors
                data_source := some "TOMTOM"
                last_updated := some now }).1 y now,
            (hist ++ [buildHistoricalDoc x now])
              ++ [buildHistoricalDoc y now], 1, 1, 2⟩ :=
      batch_step_new now _ y hfy
    have hfz : find_by_tomtom_id
        (create_station
          (update_station_status store x.tomtom_id x.status now
            { connectors := some x.connectors
              data_source := some "TOMTOM"
              last_updated := some now }).1 y now) z.tomtom_id = none := by
      rw [find_create_ne _ y now z.tomtom_id hyz]
      exact find_update_none store x.tomtom_id x.status now _ z.tomtom_id hz
    have ez : batch_step now
        (⟨create_station
            (update_station_status store x.tomtom_id x.status now
              { connectors := some x.connectors
                data_source := some "TOMTOM"
                last_updated := some now }).1 y now,
          (hist ++ [buildHistoricalDoc x now])
            ++ [buildHistoricalDoc y now], 1, 1, 2⟩ : BatchAcc) z
        = ⟨create_station (create_station
            (update_station_status store x.tomtom_id x.status now
              { connectors := some x.connectors
                data_source := some "TOMTOM"
                last_updated := some now }).1 y now) z now,
            ((hist ++ [buildHistoricalDoc x now])
              ++ [buildHistoricalDoc y now]) ++ [buildHistoricalDoc z now],
            2, 1, 3⟩ :=
      batch_step_new now _ z hfz
    rw [hunfold, ex, ey, ez]
    refine ⟨rfl, by simp [hst], by simp [hst], ?_⟩
    intro hd hmem
    simp only [List.append_assoc, List.mem_append, List.mem_cons,
      List.mem_singleton, List.not_mem_nil, or_false] at hmem
    rcases hmem with hmem | hmem | hmem | hmem
    · exact Or.inl hmem
    · subst hmem; exact Or.inr rfl
    · subst hmem; exact Or.inr rfl
    · subst hmem; exact Or.inr rfl

/-- C4 witness: the amended statement at the concrete scenario of the sample
stations, with the stored status of the existing one unchanged. -/
theorem C4_batch_scenario_witness :
    (async_batch_update 9 [docS1] [] [modelS1, modelS2, modelS3]).summary.new_stations
        = 2 ∧
    (async_batch_update 9 [docS1] []
        [modelS1, modelS2, modelS3]).summary.updated_stations
      = (if docS1.status = modelS1.status then 0 else 1) ∧
    (async_batch_update 9 [docS1] []
        [modelS1, modelS2, modelS3]).summary.historical_records
      = (if docS1.status = modelS1.status then 2 else 3) ∧
    (∀ hd ∈ (async_batch_update 9 [docS1] []
        [modelS1, modelS2, modelS3]).historical,
        hd ∈ ([] : List HistoricalDoc) ∨ hd.timestamp = 9) :=
  C4_batch_scenario 9 [docS1] [] modelS1 modelS2 modelS3 docS1
    (by decide) (by decide) (by decide) (by decide)

/-! ### Claim C5: cache-aside search -/

/-- C5: when the local geo query already returns at least
MIN_STATIONS_THRESHOLD stations the handler returns that local result and
the unchanged store for every possible adapter outcome, so the adapter is
never consulted; when it returns fewer and the adapter yields a list of
stations, the store afterwards is the cache of the fetched list over the
prior store, whose ids are exactly the union of the prior ids and the
fetched ids (absent stations inserted, present ones updated), and the
stations handed back are a fresh geo query against that updated store (when
the adapter yields an empty list the handler returns the step-1 result,
which equals the fresh query against the unchanged store). -/
theorem C5_cache_aside_search (d : StationDoc → ℚ) (now : Nat)
    (store : Store) (radius : ℚ) (sf : Option String) (limit : Nat) :
    (∀ adapter : Except Unit (List StationModel),
        MIN_STATIONS_THRESHOLD ≤
            (find_nearby_stations d store radius sf limit).length →
        search_nearby_stations_enhanced d now store radius sf limit adapter
          = (⟨find_nearby_stations d store radius sf limit,
              (find_nearby_stations d store radius sf limit).length,
              "local_database", none⟩, store)) ∧
    (∀ (ts : List StationModel) (i : String),
        containsId (cache_tomtom_stations now store ts).1 i
          = (containsId store i || ts.any (fun s => s.tomtom_id == i))) ∧
    (∀ ts : List StationModel,
        (find_nearby_stations d store radius sf limit).length <
            MIN_STATIONS_THRESHOLD →
        (search_nearby_stations_enhanced d now store radius sf limit
            (.ok ts)).2 = (cache_tomtom_stations now store ts).1 ∧
        (search_nearby_stations_enhanced d now store radius sf limit
            (.ok ts)).1.stations
          = find_nearby_stations d (cache_tomtom_stations now store ts).1
              radius sf limit) := by
  refine ⟨?_, ?_, ?_⟩
  · intro adapter h
    simp only [search_nearby_stations_enhanced]
    rw [if_neg (not_lt.mpr h)]
  · intro ts i
    exact cache_containsId now store ts i
  · intro ts h
    simp only [search_nearby_stations_enhanced]
    rw [if_pos h]
    cases hE : ts.isEmpty
    · simp only [hE, Bool.false_eq_true, if_false]
      constructor <;> first | rfl | trivial
    · have : ts = [] := List.isEmpty_iff.mp hE
      subst this
      simp only [cache_tomtom_stations, List.foldl_nil]
      exact ⟨rfl, rfl⟩

/-- C5 witness: the amended statement at a concrete empty store and a
one-station adapter response, through the theorem itself. -/
theorem C5_cache_aside_search_witness :
    (containsId (cache_tomtom_stations 7 [] [modelS2]).1 "S2"
      = (containsId [] "S2" || [modelS2].any (fun s => s.tomtom_id == "S2"))) ∧
    ((search_nearby_stations_enhanced (fun _ => 0) 7 [] 100 none 10
        (.ok [modelS2])).2 = (cache_tomtom_stations 7 [] [modelS2]).1) ∧
    ((search_nearby_stations_enhanced (fun _ => 0) 7 [] 100 none 10
        (.ok [modelS2])).1.stations
      = find_nearby_stations (fun _ => 0)
          (cache_tomtom_stations 7 [] [modelS2]).1 100 none 10) :=
  ⟨(C5_cache_aside_search (fun _ => 0) 7 [] 100 none 10).2.1 [modelS2] "S2",
    ((C5_cache_aside_search (fun _ => 0) 7 [] 100 none 10).2.2 [modelS2]
      (by simp [find_nearby_stations, MIN_STATIONS_THRESHOLD])).1,
    ((C5_cache_aside_search (fun _ => 0) 7 [] 100 none 10).2.2 [modelS2]
      (by simp [find_nearby_stations, MIN_STATIONS_THRESHOLD])).2⟩

/-! ### Claim C6: unavailable source degrades to the local result -/

/-- C6: when the local result is below the threshold and the adapter call
raises (the handler catches TomTomAPIException, the distinguishable error of
the TomTom client), the handler returns the step-1 local result and the
untouched store; the function is total, so the request itself never fails
because of the unavailable upstream. -/
theorem C6_source_unavailable_serves_local (d : StationDoc → ℚ) (now : Nat)
    (store : Store) (radius : ℚ) (sf : Option String) (limit : Nat)
    (h : (find_nearby_stations d store radius sf limit).length <
        MIN_STATIONS_THRESHOLD) :
    search_nearby_stations_enhanced d now store radius sf limit (.error ())
      = (⟨find_nearby_stations d store radius sf limit,
          (find_nearby_stations d store radius sf limit).length,
          "local_database", none⟩, store) := by
  simp only [search_nearby_stations_enhanced]
  rw [if_pos h]

/-- C6 witness: the statement at a concrete empty store, through the theorem
itself. -/
theorem C6_source_unavailable_serves_local_witness :
    search_nearby_stations_enhanced (fun _ => 0) 7 [] 100 none 10 (.error ())
      = (⟨find_nearby_stations (fun _ => 0) [] 100 none 10,
          (find_nearby_stations (fun _ => 0) [] 100 none 10).length,
          "local_database", none⟩, []) :=
  C6_source_unavailable_serves_local (fun _ => 0) 7 [] 100 none 10
    (by simp [find_nearby_stations, MIN_STATIONS_THRESHOLD])

/-! ### Claim C7: chunked bulk availability and chunk failures -/

/-- Oracle that raises on every chunk, for the C7 counterexample. -/
def c7errFetch : List String → Except Unit (Option (List String)) :=
  fun _ => .error ()

/-- Oracle that answers every chunk with one raw station entry, for the C7
witness. -/
def c7okFetch : List String → Except Unit (Option (List RawStation)) :=
  fun _ => .ok (some [⟨some "x", some "available", []⟩])

/-- Parsed entry that c7okFetch yields after normalization. -/
def c7avail : StationAvail :=
  ⟨"x", normAvailabilityStatus (some "available"), []⟩

/-- C7, counterexample to the claim as stated: in the async variant a chunk
whose provider call raises does not leave its ids absent from the returned
map; the except handler fabricates the default status AVAILABLE for every
requested id of the chunk. -/
theorem C7_fabricated_status_counterexample :
    (fetch_availability_for_stations c7errFetch (fun _ => "OCCUPIED")
        ["a"]).lookup "a" = some "AVAILABLE" ∧
    ¬ ((fetch_availability_for_stations c7errFetch (fun _ => "OCCUPIED")
        ["a"]).lookup "a" = none) := by
  decide

/-- C7, amended: both bulk availability fetchers chunk the requested id list
(20 ids per call in the sync variant, 10 in the async one) and merge the
per-chunk results, and a chunk failure does not abort the other chunks; in
the sync variant every entry of the merged result originates in a chunk
whose call succeeded, so the data of failed chunks is simply absent, but in
the async variant every id of a failed chunk is assigned the fabricated
default status AVAILABLE in the merged map. -/
theorem C7_bulk_status_chunking :
    (∀ (fetch : List String → Except Unit (Option (List RawStation)))
        (ids : List String) (a : StationAvail),
        a ∈ get_stations_availability_sync fetch ids →
        ∃ c ∈ chunksOf 20 ids, ∃ es, fetch c = .ok (some es) ∧
          a ∈ parseChunk es) ∧
    (∀ (fetch2 : List String → Except Unit (Option (List String)))
        (rnd : String → String) (ids : List String) (c : List String),
        c ∈ chunksOf 10 ids → fetch2 c = .error () →
        ∀ i ∈ c, (i, "AVAILABLE") ∈
          fetch_availability_for_stations fetch2 rnd ids) := by
  constructor
  · intro fetch ids a ha
    unfold get_stations_availability_sync at ha
    rw [mem_foldl_append] at ha
    rcases ha with ha | ⟨c, hc, hmem⟩
    · exact absurd ha (List.not_mem_nil a)
    · cases hf : fetch c with
      | error e =>
        rw [syncChunkData, hf] at hmem
        exact absurd hmem (List.not_mem_nil a)
      | ok o =>
        cases o with
        | none =>
          rw [syncChunkData, hf] at hmem
          exact absurd hmem (List.not_mem_nil a)
        | some es =>
          rw [syncChunkData, hf] at hmem
          exact ⟨c, hc, es, hf, hmem⟩
  · intro fetch2 rnd ids c hc hf i hi
    unfold fetch_availability_for_stations
    rw [mem_foldl_append]
    refine Or.inr ⟨c, hc, ?_⟩
    rw [fetch_availability_chunk, hf]
    exact List.mem_map.mpr ⟨i, hi, rfl⟩

/-- C7 witness: the amended statement at concrete inputs, one successful
sync chunk and one raising async chunk, through the theorem itself. -/
theorem C7_bulk_status_chunking_witness :
    (∃ c ∈ chunksOf 20 ["x"], ∃ es, c7okFetch c = .ok (some es) ∧
        c7avail ∈ parseChunk es) ∧
    ("a", "AVAILABLE") ∈
      fetch_availability_for_stations c7errFetch (fun _ => "OCCUPIED")
        ["a"] :=
  ⟨C7_bulk_status_chunking.1 c7okFetch ["x"] c7avail (by
      rw [show get_stations_availability_sync c7okFetch ["x"] = [c7avail]
        from rfl]
      exact List.mem_singleton.mpr rfl),
    C7_bulk_status_chunking.2 c7errFetch (fun _ => "OCCUPIED") ["a"] ["a"]
      (by decide) rfl "a" (by decide)⟩

end EvCharging
